import Mathlib

/-!
Verification of the client-side logic of a browser-based narrative chatbot
game: a JSON-declared state machine (start → icebreak → daily_routine) with
threshold triggers on "affection" and selected-subject counts, plus the
affection-to-image-prefix mapping, the message-send guard, and the calendar
month clamping found in the JavaScript sources.
-/

namespace Chatbot

/-! ## State-machine data model (spec §3, §6; config/states README) -/

/-- Condition parameters of a transition, mirroring the `conditions` JSON
object: integer thresholds used by the three trigger types. -/
structure Conditions where
  affection_increase_min : Int
  affection_min : Int
  subjects_count : Int
deriving Repr, DecidableEq

/-- A transition as declared in a state JSON file: trigger type (a raw
string, since unknown strings must be tolerated), condition parameters,
target state id and optional narration. -/
structure Transition where
  name : String
  trigger_type : String
  conditions : Conditions
  next_state : String
  transition_narration : Option String
deriving Repr, DecidableEq

/-- Player progress relevant to trigger evaluation: affection before and
after the current turn, and the selected subjects. -/
structure Progress where
  affectionBefore : Int
  affection : Int
  selectedSubjects : List String
deriving Repr, DecidableEq

/-- The three trigger types the evaluator understands. -/
def knownTriggerTypes : List String :=
  ["affection_increase", "affection_threshold", "affection_and_subjects"]

/-- Modelled from the spec: the trigger-condition check of the `StateMachine`
evaluator, whose Python source is not part of the reviewed files (only the
config/states README documents it).  Spec §4.1: `affection_increase` holds iff
(affection after − affection before) ≥ `affection_increase_min`;
`affection_threshold` holds iff current affection ≥ `affection_min`;
`affection_and_subjects` holds iff affection ≥ `affection_min` AND
count(selected subjects) ≥ `subjects_count`; an unknown trigger type is
treated as non-matching. -/
def triggerHolds (p : Progress) (t : Transition) : Bool :=
  if t.trigger_type = "affection_increase" then
    decide (p.affection - p.affectionBefore ≥ t.conditions.affection_increase_min)
  else if t.trigger_type = "affection_threshold" then
    decide (p.affection ≥ t.conditions.affection_min)
  else if t.trigger_type = "affection_and_subjects" then
    decide (p.affection ≥ t.conditions.affection_min) &&
      decide ((p.selectedSubjects.length : Int) ≥ t.conditions.subjects_count)
  else false

/-- Modelled from the spec: the ordered evaluation of a state's transition
list, whose Python source is not part of the reviewed files.  Spec §4.1, §7:
transitions are evaluated in declared order; the first transition whose
condition holds wins and its `next_state` is the result; a transition with an
unknown `trigger_type` surfaces a warning, is skipped, and evaluation
continues (not a fatal error); if no transition matches, the state is
unchanged.  Returns the resulting state id together with the warnings
surfaced to the operator. -/
def evalTransitions (p : Progress) (current : String) :
    List Transition → String × List String
  | [] => (current, [])
  | t :: ts =>
    if t.trigger_type ∈ knownTriggerTypes then
      if triggerHolds p t then (t.next_state, [])
      else evalTransitions p current ts
    else
      let rest := evalTransitions p current ts
      (rest.1, ("Unknown trigger_type: " ++ t.trigger_type) :: rest.2)

/-! ## Affection-to-image-prefix mapping (src/static/js/chatbot.js 705-717) -/

/-- Embedding of `getImagePrefixByAffection(affection)` from chatbot.js:
a chain of `affection < k` checks selecting one of five mood prefixes. -/
def getImagePrefixByAffection (affection : Int) : String :=
  if affection < 10 then "하"
  else if affection < 30 then "중하"
  else if affection < 50 then "중"
  else if affection < 70 then "중상"
  else "상"

/-- Band index of a mood string: 하 ↦ 0, 중하 ↦ 1, 중 ↦ 2, 중상 ↦ 3,
상 ↦ 4 (anything else ↦ 5), used to express monotonicity of the mapping. -/
def moodRank (s : String) : Nat :=
  if s = "하" then 0
  else if s = "중하" then 1
  else if s = "중" then 2
  else if s = "중상" then 3
  else if s = "상" then 4
  else 5

/-! ## Message-send guard (src/static/js/chatbot.js 18-42) -/

/-- Observable effects of one `sendMessage(isInitial)` call up to the fetch:
which user message was appended (if any), whether the input box was cleared,
and which message body a chat request was issued for (if any). -/
structure SendOutcome where
  appendedUser : Option String
  clearedInput : Bool
  requestSent : Option String
deriving Repr, DecidableEq

/-- Embedding of JavaScript `String.prototype.trim`: drop whitespace
characters from both ends of the string. -/
def jsTrim (s : String) : String :=
  ⟨((s.data.dropWhile Char.isWhitespace).reverse.dropWhile
      Char.isWhitespace).reverse⟩

/-- Embedding of the entry of `sendMessage(isInitial)` from chatbot.js: for
the initial call the message is `"init"`; otherwise the input value is
trimmed, and the falsy (empty) result causes an immediate return before any
message append, input clear, or fetch; a non-empty trimmed message is
appended as the user's, the input is cleared, and the request is issued. -/
def sendMessage (isInitial : Bool) (inputValue : String) : SendOutcome :=
  if isInitial then
    { appendedUser := none, clearedInput := false, requestSent := some "init" }
  else
    let message := jsTrim inputValue
    if message = "" then
      { appendedUser := none, clearedInput := false, requestSent := none }
    else
      { appendedUser := some message, clearedInput := true,
        requestSent := some message }

/-! ## Calendar month navigation (src/static/js/calendar.js 16-66) -/

/-- The calendar view: the year and 0-based month currently shown
(`currentCalendarYear`, `currentCalendarMonth`). -/
structure CalView where
  year : Int
  month : Int
deriving Repr, DecidableEq

/-- Initial calendar view from calendar.js lines 16-17:
`currentCalendarYear = 2023`, `currentCalendarMonth = 11` (December 2023). -/
def initialCalView : CalView := ⟨2023, 11⟩

/-- `new Date(y, m, d) < new Date(y2, m2, d2)` for in-range arguments:
lexicographic comparison of (year, month, day). -/
def jsDateLt (y m d y2 m2 d2 : Int) : Bool :=
  decide (y < y2 ∨ (y = y2 ∧ (m < m2 ∨ (m = m2 ∧ d < d2))))

/-- Embedding of the `calendar-prev` click handler (calendar.js 29-44):
decrement the month with year wraparound, then clamp: if
`new Date(year, month, 1) < new Date(2023, 10, 17)` the view is reset to
November 2023 (year 2023, 0-based month 10). -/
def prevClick (v : CalView) : CalView :=
  let v1 : CalView :=
    if v.month = 0 then ⟨v.year - 1, 11⟩ else ⟨v.year, v.month - 1⟩
  if jsDateLt v1.year v1.month 1 2023 10 17 then ⟨2023, 10⟩ else v1

/-- Embedding of the `calendar-next` click handler (calendar.js 48-64):
increment the month with year wraparound, then clamp: if the year exceeds
2025, or is 2025 with 0-based month above 1, the view is reset to
February 2025 (year 2025, 0-based month 1). -/
def nextClick (v : CalView) : CalView :=
  let v1 : CalView :=
    if v.month = 11 then ⟨v.year + 1, 0⟩ else ⟨v.year, v.month + 1⟩
  if v1.year > 2025 ∨ (v1.year = 2025 ∧ v1.month > 1) then ⟨2025, 1⟩ else v1

/-- A navigation click on the calendar: previous-month or next-month. -/
inductive CalClick
  | prev
  | next
deriving Repr, DecidableEq

/-- Apply one calendar navigation click. -/
def applyClick (c : CalClick) (v : CalView) : CalView :=
  match c with
  | .prev => prevClick v
  | .next => nextClick v

/-- Apply a sequence of calendar navigation clicks in order. -/
def applyClicks (cs : List CalClick) (v : CalView) : CalView :=
  cs.foldl (fun w c => applyClick c w) v

/-- Linearised month index of a view: year * 12 + month, so 2023-11
(November 2023) is `monthIdx ⟨2023, 10⟩` and 2025-02 is `monthIdx ⟨2025, 1⟩`
under the 0-based month convention of the code. -/
def monthIdx (v : CalView) : Int := v.year * 12 + v.month

/-! ## Helper lemmas -/

/-- A transition whose condition holds necessarily has one of the three
known trigger types. -/
theorem triggerHolds_mem_known {p : Progress} {t : Transition}
    (h : triggerHolds p t = true) : t.trigger_type ∈ knownTriggerTypes := by
  unfold triggerHolds at h
  split_ifs at h <;> simp_all [knownTriggerTypes]

/-- Evaluating a transition list headed by a known-type transition whose
condition fails moves on to the tail. -/
theorem evalTransitions_cons_fail {p : Progress} {current : String}
    {t : Transition} {ts : List Transition}
    (hk : t.trigger_type ∈ knownTriggerTypes)
    (hf : triggerHolds p t = false) :
    evalTransitions p current (t :: ts) = evalTransitions p current ts := by
  simp [evalTransitions, hk, hf]

/-- Evaluating a transition list headed by an unknown-type transition
prepends a warning and otherwise behaves as the tail. -/
theorem evalTransitions_cons_unknown {p : Progress} {current : String}
    {t : Transition} {ts : List Transition}
    (hk : t.trigger_type ∉ knownTriggerTypes) :
    evalTransitions p current (t :: ts) =
      ((evalTransitions p current ts).1,
        ("Unknown trigger_type: " ++ t.trigger_type) ::
          (evalTransitions p current ts).2) := by
  simp [evalTransitions, hk]

/-- An unknown trigger type makes the condition non-matching. -/
theorem triggerHolds_unknown {p : Progress} {t : Transition}
    (hk : t.trigger_type ∉ knownTriggerTypes) : triggerHolds p t = false := by
  cases hh : triggerHolds p t with
  | false => rfl
  | true => exact absurd (triggerHolds_mem_known hh) hk

/-! ## Claims on the trigger evaluator (spec-modelled) -/

/-- C1: For every state whose transition list contains two or more
transitions whose conditions hold under the current player progress, the
trigger evaluator selects the transition that appears earliest in the
declared transitions array: whenever every transition before `t` fails and
`t`'s condition holds, the resulting state is `t.next_state`, regardless of
any later (possibly also matching) transitions. -/
theorem evalTransitions_first_match_wins
    (p : Progress) (current : String) (pre post : List Transition)
    (t : Transition)
    (hpre : ∀ t' ∈ pre, triggerHolds p t' = false)
    (ht : triggerHolds p t = true) :
    (evalTransitions p current (pre ++ t :: post)).1 = t.next_state := by
  induction pre with
  | nil =>
    simp only [List.nil_append]
    simp [evalTransitions, triggerHolds_mem_known ht, ht]
  | cons t0 pre ih =>
    have h0 : triggerHolds p t0 = false := hpre t0 (by simp)
    have hrest : ∀ t' ∈ pre, triggerHolds p t' = false :=
      fun t' h' => hpre t' (by simp [h'])
    by_cases hk : t0.trigger_type ∈ knownTriggerTypes
    · rw [List.cons_append, evalTransitions_cons_fail hk h0]
      exact ih hrest
    · rw [List.cons_append, evalTransitions_cons_unknown hk]
      exact ih hrest

/-- C1 witness: in state `start` two transitions both match (affection rose
by 5 ≥ 1 and current affection 5 ≥ 3); the evaluator picks the first one. -/
theorem evalTransitions_first_match_wins_witness :
    (evalTransitions ⟨0, 5, []⟩ "start"
      ([] ++ ⟨"t1", "affection_increase", ⟨1, 0, 0⟩, "icebreak", none⟩ ::
        [⟨"t2", "affection_threshold", ⟨0, 3, 0⟩, "daily_routine", none⟩])).1 =
      "icebreak" :=
  evalTransitions_first_match_wins ⟨0, 5, []⟩ "start" []
    [⟨"t2", "affection_threshold", ⟨0, 3, 0⟩, "daily_routine", none⟩]
    ⟨"t1", "affection_increase", ⟨1, 0, 0⟩, "icebreak", none⟩
    (by intro t' h'; simp at h') (by decide)

/-- C2: an `affection_increase` transition's condition holds iff the
affection delta of the turn (after − before) is at least
`affection_increase_min`; in particular a strictly smaller delta never
fires the trigger. -/
theorem affection_increase_iff (p : Progress) (t : Transition)
    (h : t.trigger_type = "affection_increase") :
    (triggerHolds p t = true ↔
      p.affection - p.affectionBefore ≥ t.conditions.affection_increase_min) ∧
    (p.affection - p.affectionBefore < t.conditions.affection_increase_min →
      triggerHolds p t = false) := by
  constructor
  · simp [triggerHolds, h]
  · intro hlt
    simp [triggerHolds, h]
    omega

/-- C2 witness: with `affection_increase_min = 1`, a 0→1 turn fires the
trigger and a 0→0 turn does not. -/
theorem affection_increase_iff_witness :
    (triggerHolds ⟨0, 1, []⟩ ⟨"t", "affection_increase", ⟨1, 0, 0⟩, "icebreak", none⟩ = true) ∧
    (triggerHolds ⟨0, 0, []⟩ ⟨"t", "affection_increase", ⟨1, 0, 0⟩, "icebreak", none⟩ = false) :=
  ⟨(affection_increase_iff ⟨0, 1, []⟩
      ⟨"t", "affection_increase", ⟨1, 0, 0⟩, "icebreak", none⟩ rfl).1.mpr (by decide),
   (affection_increase_iff ⟨0, 0, []⟩
      ⟨"t", "affection_increase", ⟨1, 0, 0⟩, "icebreak", none⟩ rfl).2 (by decide)⟩

/-- C3: an `affection_threshold` transition's condition holds iff current
affection ≥ `affection_min`; the boundary is inclusive, so affection exactly
equal to `affection_min` fires the trigger. -/
theorem affection_threshold_iff (p : Progress) (t : Transition)
    (h : t.trigger_type = "affection_threshold") :
    (triggerHolds p t = true ↔ p.affection ≥ t.conditions.affection_min) ∧
    (p.affection = t.conditions.affection_min → triggerHolds p t = true) := by
  constructor
  · simp [triggerHolds, h]
  · intro he
    simp [triggerHolds, h]
    omega

/-- C3 witness: with `affection_min = 10`, affection exactly 10 fires the
trigger (inclusive boundary). -/
theorem affection_threshold_iff_witness :
    triggerHolds ⟨0, 10, []⟩
      ⟨"t", "affection_threshold", ⟨0, 10, 0⟩, "daily_routine", none⟩ = true :=
  (affection_threshold_iff ⟨0, 10, []⟩
    ⟨"t", "affection_threshold", ⟨0, 10, 0⟩, "daily_routine", none⟩ rfl).2 rfl

/-- C4: an `affection_and_subjects` transition's condition holds iff both
conjuncts hold: affection ≥ `affection_min` AND the number of selected
subjects ≥ `subjects_count`; if either conjunct fails it does not fire. -/
theorem affection_and_subjects_iff (p : Progress) (t : Transition)
    (h : t.trigger_type = "affection_and_subjects") :
    triggerHolds p t = true ↔
      (p.affection ≥ t.conditions.affection_min ∧
        (p.selectedSubjects.length : Int) ≥ t.conditions.subjects_count) := by
  simp [triggerHolds, h]

/-- C4 witness: affection 10 with 2 subjects satisfies both conjuncts of a
`{affection_min: 10, subjects_count: 2}` condition; with 1 subject the
second conjunct fails and the trigger does not fire. -/
theorem affection_and_subjects_iff_witness :
    (triggerHolds ⟨0, 10, ["물리", "화학"]⟩
      ⟨"t", "affection_and_subjects", ⟨0, 10, 2⟩, "daily_routine", none⟩ = true) ∧
    (triggerHolds ⟨0, 10, ["물리"]⟩
      ⟨"t", "affection_and_subjects", ⟨0, 10, 2⟩, "daily_routine", none⟩ ≠ true) :=
  ⟨(affection_and_subjects_iff ⟨0, 10, ["물리", "화학"]⟩
      ⟨"t", "affection_and_subjects", ⟨0, 10, 2⟩, "daily_routine", none⟩ rfl).mpr
      (by constructor <;> decide),
   fun hh =>
    absurd ((affection_and_subjects_iff ⟨0, 10, ["물리"]⟩
      ⟨"t", "affection_and_subjects", ⟨0, 10, 2⟩, "daily_routine", none⟩ rfl).mp hh).2
      (by decide)⟩

/-- C5: if no transition's condition holds, evaluating the trigger list
leaves the current state id unchanged. -/
theorem evalTransitions_none_match (p : Progress) (current : String)
    (ts : List Transition) (h : ∀ t ∈ ts, triggerHolds p t = false) :
    (evalTransitions p current ts).1 = current := by
  induction ts with
  | nil => rfl
  | cons t ts ih =>
    have h0 : triggerHolds p t = false := h t (by simp)
    have hrest : ∀ t' ∈ ts, triggerHolds p t' = false :=
      fun t' h' => h t' (by simp [h'])
    by_cases hk : t.trigger_type ∈ knownTriggerTypes
    · rw [evalTransitions_cons_fail hk h0]
      exact ih hrest
    · rw [evalTransitions_cons_unknown hk]
      exact ih hrest

/-- C5 witness: with affection stuck at 0, neither an `affection_increase`
≥ 1 nor an `affection_threshold` ≥ 10 transition matches, and the state
stays `start`. -/
theorem evalTransitions_none_match_witness :
    (evalTransitions ⟨0, 0, []⟩ "start"
      [⟨"t1", "affection_increase", ⟨1, 0, 0⟩, "icebreak", none⟩,
       ⟨"t2", "affection_threshold", ⟨0, 10, 0⟩, "daily_routine", none⟩]).1 =
      "start" :=
  evalTransitions_none_match ⟨0, 0, []⟩ "start"
    [⟨"t1", "affection_increase", ⟨1, 0, 0⟩, "icebreak", none⟩,
     ⟨"t2", "affection_threshold", ⟨0, 10, 0⟩, "daily_routine", none⟩]
    (by intro t ht; fin_cases ht <;> decide)

/-- C6: a transition whose `trigger_type` is none of the three enumerated
types is treated as non-matching, surfaces an `Unknown trigger_type` warning,
is skipped, and evaluation continues with the later transitions (the
evaluator still returns a result rather than failing). -/
theorem evalTransitions_unknown_trigger (p : Progress) (current : String)
    (t : Transition) (ts : List Transition)
    (hk : t.trigger_type ∉ knownTriggerTypes) :
    triggerHolds p t = false ∧
    evalTransitions p current (t :: ts) =
      ((evalTransitions p current ts).1,
        ("Unknown trigger_type: " ++ t.trigger_type) ::
          (evalTransitions p current ts).2) :=
  ⟨triggerHolds_unknown hk, evalTransitions_cons_unknown hk⟩

/-- C6 witness: a `"stamina_check"` transition never matches, contributes
the warning, and evaluation continues to a later matching transition. -/
theorem evalTransitions_unknown_trigger_witness :
    triggerHolds ⟨0, 10, []⟩
      ⟨"bad", "stamina_check", ⟨0, 0, 0⟩, "nowhere", none⟩ = false ∧
    evalTransitions ⟨0, 10, []⟩ "start"
      (⟨"bad", "stamina_check", ⟨0, 0, 0⟩, "nowhere", none⟩ ::
        [⟨"t2", "affection_threshold", ⟨0, 10, 0⟩, "daily_routine", none⟩]) =
      ((evalTransitions ⟨0, 10, []⟩ "start"
          [⟨"t2", "affection_threshold", ⟨0, 10, 0⟩, "daily_routine", none⟩]).1,
        ("Unknown trigger_type: " ++ "stamina_check") ::
          (evalTransitions ⟨0, 10, []⟩ "start"
            [⟨"t2", "affection_threshold", ⟨0, 10, 0⟩, "daily_routine", none⟩]).2) :=
  evalTransitions_unknown_trigger ⟨0, 10, []⟩ "start"
    ⟨"bad", "stamina_check", ⟨0, 0, 0⟩, "nowhere", none⟩
    [⟨"t2", "affection_threshold", ⟨0, 10, 0⟩, "daily_routine", none⟩]
    (by decide)

/-- C7: in state `start` with the single transition
`{trigger_type: affection_increase, affection_increase_min: 1,
next_state: icebreak}`, a turn taking affection from 0 to 1 moves the
evaluator to `icebreak`. -/
theorem start_affection_0_to_1_goes_icebreak :
    (evalTransitions ⟨0, 1, []⟩ "start"
      [⟨"첫 대화", "affection_increase", ⟨1, 0, 0⟩, "icebreak", none⟩]).1 =
      "icebreak" := by
  decide

/-! ## Claims on the JavaScript UI logic -/

/-- Band index of an affection value, matching the if-chain boundaries of
`getImagePrefixByAffection` (proof auxiliary for monotonicity). -/
def affectionBand (a : Int) : Nat :=
  if a < 10 then 0
  else if a < 30 then 1
  else if a < 50 then 2
  else if a < 70 then 3
  else 4

/-- The mood rank of the selected prefix equals the affection band. -/
theorem moodRank_getImagePrefixByAffection (a : Int) :
    moodRank (getImagePrefixByAffection a) = affectionBand a := by
  unfold getImagePrefixByAffection affectionBand
  split_ifs <;> rfl

/-- C8: the affection-to-image-prefix mapping is total on integers and
partitions them into exactly five bands with boundaries 10, 30, 50, 70
(하 below 10, 중하 on [10,30), 중 on [30,50), 중상 on [50,70), 상 from 70
up), and the band of the chosen prefix is monotone in affection. -/
theorem getImagePrefixByAffection_bands :
    (∀ a : Int, a < 10 → getImagePrefixByAffection a = "하") ∧
    (∀ a : Int, 10 ≤ a → a < 30 → getImagePrefixByAffection a = "중하") ∧
    (∀ a : Int, 30 ≤ a → a < 50 → getImagePrefixByAffection a = "중") ∧
    (∀ a : Int, 50 ≤ a → a < 70 → getImagePrefixByAffection a = "중상") ∧
    (∀ a : Int, 70 ≤ a → getImagePrefixByAffection a = "상") ∧
    (∀ a b : Int, a ≤ b →
      moodRank (getImagePrefixByAffection a) ≤
        moodRank (getImagePrefixByAffection b)) := by
  refine ⟨?_, ?_, ?_, ?_, ?_, ?_⟩
  · intro a h
    unfold getImagePrefixByAffection
    rw [if_pos h]
  · intro a h1 h2
    unfold getImagePrefixByAffection
    rw [if_neg (by omega), if_pos h2]
  · intro a h1 h2
    unfold getImagePrefixByAffection
    rw [if_neg (by omega), if_neg (by omega), if_pos h2]
  · intro a h1 h2
    unfold getImagePrefixByAffection
    rw [if_neg (by omega), if_neg (by omega), if_neg (by omega), if_pos h2]
  · intro a h
    unfold getImagePrefixByAffection
    rw [if_neg (by omega), if_neg (by omega), if_neg (by omega),
      if_neg (by omega)]
  · intro a b hab
    rw [moodRank_getImagePrefixByAffection, moodRank_getImagePrefixByAffection]
    unfold affectionBand
    split_ifs <;> omega

/-- C8 witness: boundary values land in their bands inclusively and the
prefix band never decreases across a concrete increase in affection. -/
theorem getImagePrefixByAffection_bands_witness :
    getImagePrefixByAffection 9 = "하" ∧
    getImagePrefixByAffection 10 = "중하" ∧
    getImagePrefixByAffection 30 = "중" ∧
    getImagePrefixByAffection 50 = "중상" ∧
    getImagePrefixByAffection 70 = "상" ∧
    moodRank (getImagePrefixByAffection 9) ≤
      moodRank (getImagePrefixByAffection 70) :=
  ⟨getImagePrefixByAffection_bands.1 9 (by decide),
   getImagePrefixByAffection_bands.2.1 10 (by decide) (by decide),
   getImagePrefixByAffection_bands.2.2.1 30 (by decide) (by decide),
   getImagePrefixByAffection_bands.2.2.2.1 50 (by decide) (by decide),
   getImagePrefixByAffection_bands.2.2.2.2.1 70 (by decide),
   getImagePrefixByAffection_bands.2.2.2.2.2 9 70 (by decide)⟩

/-- C9: a non-initial `sendMessage` call whose input trims to the empty
string returns immediately: no message is appended, the input box is not
cleared, and no chat request is issued; moreover a chat request is issued
only for the initial `"init"` message or for a non-empty trimmed input. -/
theorem sendMessage_empty_input_noop :
    (∀ input : String, jsTrim input = "" →
      sendMessage false input =
        { appendedUser := none, clearedInput := false, requestSent := none }) ∧
    (∀ (isInitial : Bool) (input m : String),
      (sendMessage isInitial input).requestSent = some m →
        (isInitial = true ∧ m = "init") ∨ (m = jsTrim input ∧ m ≠ "")) := by
  constructor
  · intro input h
    simp [sendMessage, h]
  · intro isInitial input m hm
    cases isInitial with
    | true =>
      simp [sendMessage] at hm
      exact Or.inl ⟨rfl, hm.symm⟩
    | false =>
      by_cases he : jsTrim input = ""
      · simp [sendMessage, he] at hm
      · simp [sendMessage, he] at hm
        exact Or.inr ⟨hm.symm, by simp [← hm, he]⟩

/-- C9 witness: whitespace-only input is a no-op, and the request issued
for the input `" hi "` carries its trimmed, non-empty text. -/
theorem sendMessage_empty_input_noop_witness :
    sendMessage false "   " =
      { appendedUser := none, clearedInput := false, requestSent := none } ∧
    ((false = true ∧ "hi" = "init") ∨ ("hi" = jsTrim " hi " ∧ "hi" ≠ "")) :=
  ⟨sendMessage_empty_input_noop.1 "   " (by decide),
   sendMessage_empty_input_noop.2 false " hi " "hi" (by decide)⟩

/-- States of the calendar view preserved by both navigation handlers: a
valid 0-based month, never before November 2023 and never after
February 2025. -/
def calViewInv (v : CalView) : Prop :=
  0 ≤ v.month ∧ v.month ≤ 11 ∧
    monthIdx ⟨2023, 10⟩ ≤ monthIdx v ∧ monthIdx v ≤ monthIdx ⟨2025, 1⟩

/-- One navigation click preserves the calendar range invariant. -/
theorem applyClick_inv {v : CalView} (c : CalClick) (h : calViewInv v) :
    calViewInv (applyClick c v) := by
  obtain ⟨h0, h11, hlo, hhi⟩ := h
  simp only [monthIdx] at hlo hhi
  cases c with
  | prev =>
    simp only [applyClick, prevClick, jsDateLt]
    split_ifs with hm hc hc <;>
      simp_all [calViewInv, monthIdx] <;> omega
  | next =>
    simp only [applyClick, nextClick]
    split_ifs with hm hc hc <;>
      simp_all [calViewInv, monthIdx] <;> omega

/-- A sequence of clicks preserves the calendar range invariant. -/
theorem applyClicks_inv (cs : List CalClick) {v : CalView}
    (h : calViewInv v) : calViewInv (applyClicks cs v) := by
  induction cs generalizing v with
  | nil => exact h
  | cons c cs ih => exact ih (applyClick_inv c h)

/-- C10: starting from the initial view (December 2023), the viewed
(year, month) stays clamped to the range November 2023 through
February 2025 after every sequence of prev-button and next-button clicks:
it never precedes 2023-11 and never exceeds 2025-02. -/
theorem calendar_view_clamped (cs : List CalClick) :
    monthIdx ⟨2023, 10⟩ ≤ monthIdx (applyClicks cs initialCalView) ∧
    monthIdx (applyClicks cs initialCalView) ≤ monthIdx ⟨2025, 1⟩ := by
  have h : calViewInv (applyClicks cs initialCalView) :=
    applyClicks_inv cs (by refine ⟨?_, ?_, ?_, ?_⟩ <;> decide)
  exact ⟨h.2.2.1, h.2.2.2⟩

end Chatbot
